import Mathlib

/-!
Verification development for the `file-streaming` repository
(`src/src/ffmpeg.js`, final `FileStreaming` module).

The JavaScript source is shallowly embedded: the per-rendition snapshot
buffers, the `Emission` lifecycle, and the `FileStreaming` session callback
become pure Lean functions over an explicit session state.  A central fact
of the final module shapes the model: the `emit` callback reads
`this._last.list[r]` and `this._current.list[r]`, but the final `Emission`
class defines no `list` property or getter (its getters are `dir`, `input`,
`segmentTime`, `listSize`, `timestamp`, `isEmpty`), so the access evaluates
as `undefined[r]` and throws a `TypeError` on every callback invocation —
after the promotion block and before the merge, the window trim and
disposal, the discontinuity tagging, and the `writeMasterList` call.  The
model therefore ends each segment event after the push and the promotion,
with no playlist write; the downstream steps are dead code in the source.
Playlist text is modelled as a list of lines, each line a `List Char`;
decimal rendering of the numeric tags mirrors JavaScript template
interpolation `${n}` of a non-negative integer.
-/

/-! ## Decimal digits: rendering and parsing

`natDigs n` models the decimal text produced by JavaScript `${n}` for a
non-negative integer.  `digsToNat` models the regex capture `(\d+)` of
`readList` followed by the numeric coercion `* 1`.
-/

/-- The decimal digit character for `n % 10`. -/
def digitChar (n : Nat) : Char := Char.ofNat (48 + n % 10)

/-- Numeric value of a digit character (JavaScript char code minus 48). -/
def digitVal (c : Char) : Nat := c.toNat - 48

/-- Decimal rendering of a natural number, most significant digit first:
the model of JavaScript `${n}` for a non-negative integer. -/
def natDigs (n : Nat) : List Char :=
  if h : n < 10 then [digitChar n]
  else natDigs (n / 10) ++ [digitChar (n % 10)]
termination_by n
decreasing_by
  exact Nat.div_lt_self (by omega) (by omega)

/-- Left-to-right accumulation of a digit string, the model of reading the
regex capture `(\d+)` as a number. -/
def digsToNatAux (acc : Nat) : List Char → Option Nat
  | [] => some acc
  | c :: rest => if c.isDigit then digsToNatAux (acc * 10 + digitVal c) rest else none

/-- Parse a non-empty all-digit string into a natural number; `none` on an
empty string or any non-digit character (the regex `(\d+)` fails to match). -/
def digsToNat : List Char → Option Nat
  | [] => none
  | c :: rest => digsToNatAux 0 (c :: rest)

theorem digitChar_isDigit_and_val :
    ∀ k, k < 10 → (digitChar k).isDigit = true ∧ digitVal (digitChar k) = k := by
  decide

theorem digsToNatAux_append (acc : Nat) (l₁ l₂ : List Char) :
    digsToNatAux acc (l₁ ++ l₂) =
      match digsToNatAux acc l₁ with
      | some a => digsToNatAux a l₂
      | none => none := by
  induction l₁ generalizing acc with
  | nil => simp [digsToNatAux]
  | cons c rest ih =>
    simp only [List.cons_append, digsToNatAux]
    by_cases h : c.isDigit
    · simp [h, ih]
    · simp [h]

theorem natDigs_ne_nil (n : Nat) : natDigs n ≠ [] := by
  rw [natDigs]
  split <;> simp

theorem digsToNatAux_natDigs (n : Nat) :
    ∀ acc, digsToNatAux acc (natDigs n) = some (acc * 10 ^ (natDigs n).length + n) := by
  induction n using Nat.strong_induction_on with
  | _ n ih =>
    intro acc
    rw [natDigs]
    split
    · next h =>
      have hd := digitChar_isDigit_and_val n (by omega)
      simp only [digsToNatAux, hd.1, if_true, hd.2, List.length_singleton, pow_one]
    · next h =>
      have hlt : n / 10 < n := Nat.div_lt_self (by omega) (by omega)
      rw [digsToNatAux_append]
      rw [ih (n / 10) hlt acc]
      have hd := digitChar_isDigit_and_val (n % 10) (Nat.mod_lt _ (by omega))
      simp only [digsToNatAux, hd.1, if_true, hd.2, List.length_append,
        List.length_singleton, pow_succ]
      have hdm : 10 * (n / 10) + n % 10 = n := Nat.div_add_mod n 10
      congr 1
      ring_nf
      omega

/-- Round trip: parsing the decimal rendering of `n` yields `n`. -/
theorem digsToNat_natDigs (n : Nat) : digsToNat (natDigs n) = some n := by
  have h := digsToNatAux_natDigs n 0
  have hne := natDigs_ne_nil n
  cases hd : natDigs n with
  | nil => exact absurd hd hne
  | cons c rest =>
    rw [hd] at h
    simpa [digsToNat] using h

/-! ## Rendition table and resolution mask

From `ffmpeg.js`: the frozen `RENDITIONS` array and the mask test
`Math.pow(2, i) & resolutionMask`. -/

/-- One entry of the frozen `RENDITIONS` array. -/
structure Rendition where
  width : Nat
  height : Nat
  audiorate : Nat
  bitrate : Nat
  maxrate : Nat
  bufsize : Nat
deriving DecidableEq, Repr

/-- The frozen quality ladder `RENDITIONS` of `ffmpeg.js`. -/
def RENDITIONS : List Rendition :=
  [⟨640, 360, 96, 800, 856, 1200⟩,
   ⟨842, 480, 128, 1400, 1498, 2100⟩,
   ⟨1280, 720, 128, 2800, 2996, 4200⟩,
   ⟨1920, 1080, 192, 5000, 5350, 7500⟩]

/-- Heights of the renditions enabled by a resolution mask, in index order:
`Math.pow(2, i) & resolutionMask` is bit test `i`. -/
def maskHeights (mask : Nat) : List Nat :=
  ((List.range RENDITIONS.length).filter (fun i => Nat.testBit mask i)).map
    (fun i => (RENDITIONS.getD i ⟨0, 0, 0, 0, 0, 0⟩).height)

/-! ## Data model

`Snapshot` is the result of `readList` on the engine playlist: the target
duration, the media sequence, and the newest segment (duration plus file
name).  The JavaScript stores the captured duration strings; since the
spec treats them numerically (`Math.max` coerces them), they are modelled
as naturals.  File names are lists of characters. -/

/-- The newest segment entry of an engine playlist (`readList`'s
`segment` field): EXTINF duration and file name. -/
structure SegEntry where
  duration : Nat
  file : List Char
deriving DecidableEq, Repr

/-- One `readList` result, pushed onto an emission's per-rendition buffer
on each file-watch event. -/
structure Snapshot where
  duration : Nat
  sequence : Nat
  segment : SegEntry
deriving DecidableEq, Repr

/-- A segment as `writeMasterList` serializes it: EXTINF duration, file
name, and a discontinuity flag (`#EXT-X-DISCONTINUITY` before the entry
when set). -/
structure Seg where
  duration : Nat
  file : List Char
  discontinuity : Bool
deriving DecidableEq, Repr

/-- One entry of the merged draining+current view that the dead branch of
the `emit` callback would build: the owning emission (by store index),
the snapshot's target duration and media sequence, and the segment
record.  Only its `seg` field reaches `writeMasterList`. -/
structure MItem where
  owner : Nat
  duration : Nat
  sequence : Nat
  seg : Seg
deriving DecidableEq, Repr

/-- The data handed to `writeMasterList` for one rendition playlist
rewrite (the source's `{duration, sequence, segments}` object, plus the
rendition): the serialized segments are `items.map MItem.seg`. -/
structure WriteAct where
  rend : Nat
  duration : Nat
  sequence : Nat
  items : List MItem
deriving DecidableEq, Repr

/-! ## Emission

The `Emission` class: per-rendition snapshot buffers (`_list`, keyed by
the rendition height), the per-rendition playlist file it owns on disk
(`{timestamp}_{height}p.m3u8`, tracked as a boolean per rendition), and
the transcoder process state.  The class exposes the getters `dir`,
`input`, `segmentTime`, `listSize`, `timestamp` and `isEmpty`; it defines
no `list` getter, so `emission.list` is `undefined` — the fact at the
heart of the session callback model below. -/

structure Emission where
  timestamp : Nat
  heights : List Nat
  bufs : Nat → List Snapshot
  listFiles : Nat → Bool
  running : Bool

/-- A fresh emission as constructed by `FileStreaming.emit`: empty buffers
for the enabled renditions, no playlist files yet, process spawned. -/
def freshEmission (ts : Nat) (hs : List Nat) : Emission :=
  { timestamp := ts, heights := hs, bufs := fun _ => [], listFiles := fun _ => false,
    running := true }

/-- Placeholder emission for out-of-range store lookups. -/
def defaultEmission : Emission := freshEmission 0 []

/-- The watch handler in `Emission.start`: on a file-change event the
engine playlist is re-read and the snapshot pushed onto that rendition's
buffer (`this._list[res].push(list)`), with no deduplication; the playlist
file is known to exist at that point (`fs.existsSync` guard). -/
def Emission.pushSnapshot (e : Emission) (r : Nat) (snap : Snapshot) : Emission :=
  { e with bufs := fun x => if x = r then e.bufs r ++ [snap] else e.bufs x,
           listFiles := fun x => if x = r then true else e.listFiles x }

/-- Model of `Emission.isEmpty`: every enabled rendition's buffer is empty. -/
def Emission.isEmpty (e : Emission) : Bool :=
  e.heights.all (fun r => (e.bufs r).isEmpty)

/-- Model of `Emission.stop`: pause stdin and kill the process. -/
def Emission.stopProcess (e : Emission) : Emission := { e with running := false }

/-! ## The FileStreaming session

`FileStreaming`: output directory and master playlist are construction
side effects; the claims concern the mutable part: the emission store and
the `_current`/`_last` references (by store index; JavaScript `===`
becomes index equality, distinct emissions occupy distinct indices). -/

structure FileStreaming where
  url : Option (List Char)
  mask : Nat
  listSize : Nat
  ems : List Emission
  current : Option Nat
  last : Option Nat

/-- Store lookup for an emission reference. -/
def getEm (s : FileStreaming) (i : Nat) : Emission := (s.ems[i]?).getD defaultEmission

/-- A freshly constructed session: no emissions, no references. -/
def initSession (url : Option (List Char)) (mask listSize : Nat) : FileStreaming :=
  { url := url, mask := mask, listSize := listSize, ems := [], current := none, last := none }

/-- Model of `FileStreaming.emit(input)`: rejected with `'Transition in progress'`
while `this._last` is set (before any `Emission` is constructed);
otherwise a new emission is constructed for the enabled renditions and
its process started.  `ts` is the construction timestamp (`Date.now()`). -/
def FileStreaming.emit (s : FileStreaming) (ts : Nat) : Except String FileStreaming :=
  if s.last.isSome then Except.error "Transition in progress"
  else Except.ok { s with ems := s.ems ++ [freshEmission ts (maskHeights s.mask)] }

/-- The watch handler's push, at session level (the `_list[res].push`
inside `Emission.start` before the session callback is invoked). -/
def FileStreaming.pushStep (s : FileStreaming) (eid r : Nat) (snap : Snapshot) :
    FileStreaming :=
  { s with ems := s.ems.set eid ((getEm s eid).pushSnapshot r snap) }

/-- Promotion at the head of the `emit` callback: an absent `current` is
set to the emitting emission; an emitting emission with a strictly newer
timestamp demotes the old `current` to `last` and stops it. -/
def FileStreaming.promoteStep (s : FileStreaming) (eid : Nat) : FileStreaming :=
  match s.current with
  | none => { s with current := some eid }
  | some cid =>
    if eid ≠ cid ∧ (getEm s cid).timestamp < (getEm s eid).timestamp then
      { s with last := some cid, current := some eid,
               ems := s.ems.set cid (getEm s cid).stopProcess }
    else s

/-- The `emit` callback after the watcher's push.  The promotion block
runs; then the callback reads `this._last.list[r]` (when a draining
reference exists) or `this._current.list[r]`, and since the final
`Emission` class defines no `list` property or getter the access is
`undefined[r]` and throws a `TypeError` on every invocation.  Everything
after it in the callback body — the merged view, the window trim with its
`dispose` calls and reference clearing, the discontinuity tagging, and
the `writeMasterList` call — is dead code.  So the state after a callback
is exactly the promoted state, no rendition playlist is ever written
(`none` unconditionally), and only the mutations made before the throw
persist. -/
def FileStreaming.onWrite (s0 : FileStreaming) (eid r : Nat) :
    FileStreaming × Option WriteAct :=
  (s0.promoteStep eid, none)

/-- One complete `segmentWritten` event: the watch handler pushes the
snapshot and invokes the session callback. -/
def FileStreaming.watchEvent (s : FileStreaming) (eid r : Nat) (snap : Snapshot) :
    FileStreaming × Option WriteAct :=
  (s.pushStep eid r snap).onWrite eid r

/-- Sessions reachable from construction by `emit` calls and watch events
for registered emissions and their enabled renditions. -/
inductive Reachable : FileStreaming → Prop
  | init (url : Option (List Char)) (mask listSize : Nat) :
      Reachable (initSession url mask listSize)
  | emit {s s' : FileStreaming} (ts : Nat) :
      Reachable s → s.emit ts = Except.ok s' → Reachable s'
  | watch {s : FileStreaming} (eid r : Nat) (snap : Snapshot) :
      Reachable s → eid < s.ems.length → r ∈ (getEm s eid).heights →
      Reachable (s.watchEvent eid r snap).1

/-! ## Playlist codec

`writeMasterList` is a top-level function of the module: it builds an
array of lines and joins with newlines; the file is modelled as that list
of lines.  Its only call site is the dead tail of the `emit` callback,
but the function itself is well defined and analysed here.
`readListSequence` models the media-sequence extraction of `readList`,
the regex `#EXT-X-MEDIA-SEQUENCE:(\d+)\n` at line granularity: the first
line before the final one (the final line is not followed by a newline in
the joined text) that starts with the tag and continues with one or more
digits to the end of the line. -/

def msTagChars : List Char := "#EXT-X-MEDIA-SEQUENCE:".toList

def tdTagChars : List Char := "#EXT-X-TARGETDURATION:".toList

/-- Lines contributed to the playlist by one segment: an optional
discontinuity tag, the EXTINF line, and the (optionally URL-resolved)
file line.  `resolve` models `url ? new URL(segment.file, url).href :
segment.file`. -/
def segLines (resolve : List Char → List Char) (sg : Seg) : List (List Char) :=
  (if sg.discontinuity then ["#EXT-X-DISCONTINUITY".toList] else []) ++
  ["#EXTINF:".toList ++ natDigs sg.duration ++ [','], resolve sg.file]

/-- Model of `writeMasterList`: the fixed header, the target-duration and
media-sequence tags, then the per-segment lines in window order. -/
def writeMasterList (resolve : List Char → List Char) (w : WriteAct) :
    List (List Char) :=
  ["#EXTM3U".toList,
   "#EXT-X-VERSION:3".toList,
   "#EXT-X-ALLOW-CACHE:YES".toList,
   tdTagChars ++ natDigs w.duration,
   msTagChars ++ natDigs w.sequence] ++
  ((w.items.map MItem.seg).map (segLines resolve)).flatten

/-- Model of the media-sequence extraction in `readList`. -/
def readListSequence : List (List Char) → Option Nat
  | [] => none
  | [_] => none
  | l :: next :: t =>
    if msTagChars.isPrefixOf l then
      match digsToNat (l.drop msTagChars.length) with
      | some n => some n
      | none => readListSequence (next :: t)
    else readListSequence (next :: t)

/-! ## The transcoder diagnostic stream (`Emission.start`)

The stderr handler of the authoritative `Emission.start` splits each data
chunk on `'\r\n'` and rejects the start promise with the first known
error that occurs among the resulting lines **as a whole line**
(`Array.includes` is exact element equality).  It does not stop the
process, and the playlist watchers keep appending snapshots. -/

/-- The fixed fatal phrases of the authoritative `Emission.start`. -/
def knownErrors : List (List Char) :=
  ["Invalid argument".toList,
   "No such file or directory".toList,
   "Invalid data found when processing input".toList,
   "No streams to mux were specified".toList]

/-- Split a character stream on CRLF pairs, the model of
`data.toString().split('\r\n')`. -/
def splitCRLFAux : List Char → List Char → List (List Char)
  | [], acc => [acc.reverse]
  | '\r' :: '\n' :: rest, acc => acc.reverse :: splitCRLFAux rest []
  | c :: rest, acc => splitCRLFAux rest (c :: acc)

/-- Split a chunk on CRLF. -/
def splitCRLF (cs : List Char) : List (List Char) := splitCRLFAux cs []

/-- Model of the stderr data handler's scan: split the chunk on CRLF and
return the first known error occurring among the lines **as an exact
line** (`Array.includes` is element equality, not substring search). -/
def stderrScan (chunk : List Char) : Option (List Char) :=
  knownErrors.find? (fun err => (splitCRLF chunk).contains err)

/-- Observable state of one `Emission.start` run: whether the spawned
process is still running, how the start promise settled (if it has), and
the per-rendition snapshot buffers. -/
structure EmRun where
  running : Bool
  settled : Option (Except (List Char) Int)
  bufs : Nat → List Snapshot

/-- Events delivered to a started emission: a stderr data chunk, a
playlist watch event, or process exit. -/
inductive EmEvent
  | stderrData (chunk : List Char)
  | watchFire (r : Nat) (snap : Snapshot)
  | closeEvent (code : Int)

/-- Initial state right after `spawn`. -/
def emRunInit : EmRun := { running := true, settled := none, bufs := fun _ => [] }

/-- One event step of a started emission, mirroring the handlers
registered in `Emission.start`: the stderr handler only rejects (a
promise settles once and the process is not stopped); the watch handler
appends regardless of how the promise settled; `close` resolves with the
exit code if still unsettled. -/
def emRunStep (st : EmRun) : EmEvent → EmRun
  | .stderrData chunk =>
    match stderrScan chunk with
    | some err => if st.settled.isSome then st else { st with settled := some (.error err) }
    | none => st
  | .watchFire r snap =>
    { st with bufs := fun x => if x = r then st.bufs r ++ [snap] else st.bufs x }
  | .closeEvent code =>
    if st.settled.isSome then { st with running := false }
    else { st with running := false, settled := some (.ok code) }

/-- Run a sequence of events. -/
def emRunTrace (evs : List EmEvent) : EmRun := evs.foldl emRunStep emRunInit

/-! ## The `renditions` getter

The final module binds these top-level names; the exported class is
`FileStreaming`.  Its `renditions` getter evaluates
`LiveStreaming.getResolutions(this.resolutionMask)`, and the identifier
`LiveStreaming` is not among them, so every access throws a
`ReferenceError` before any rendition list can be produced. -/

/-- Top-level bindings of the final `ffmpeg.js` module. -/
def moduleTopLevelNames : List String :=
  ["fs", "path", "spawn", "ffmpeg", "RENDITIONS",
   "readList", "writeMasterList", "Emission", "FileStreaming"]

/-- Failure mode of evaluating the getter. -/
inductive JsError
  | referenceError (name : String)
deriving DecidableEq, Repr

/-- Model of the `renditions` getter body
`LiveStreaming.getResolutions(this.resolutionMask)`: resolving the free
identifier `LiveStreaming` in module scope fails unless the module binds
it; on success the enabled profiles would be produced. -/
def renditionsGetter (mask : Nat) : Except JsError (List Rendition) :=
  if moduleTopLevelNames.contains "LiveStreaming" then
    Except.ok (((List.range RENDITIONS.length).filter
      (fun i => Nat.testBit mask i)).map (fun i => RENDITIONS.getD i ⟨0, 0, 0, 0, 0, 0⟩))
  else Except.error (.referenceError "LiveStreaming")

/-! ## Concrete states

`hoT0`–`hoT4` is a handoff trace: one emission, one segment, a second
emission, one segment of the second emission — the second is promoted,
the first demoted to `last` and stopped.  `ovT1`–`ovT3` continues `hoT1`
with three segment events of a single emission against window size 2, so
its buffer outgrows the window.  `wSnapA` and `dupSnap` are concrete
snapshots, `fatalChunk` a concrete stderr chunk, `c7w` a concrete
non-empty rewrite record for the codec. -/

/-- A simple concrete snapshot. -/
def wSnapA : Snapshot := ⟨4, 0, ⟨4, ['a']⟩⟩

/-- Step 0 of the shared concrete handoff trace: a fresh session with
mask 4 (720p only) and window size 2. -/
def hoT0 : FileStreaming := initSession none 4 2

/-- After one accepted emit (timestamp 100). -/
def hoT1 : FileStreaming := (hoT0.emit 100).toOption.getD hoT0

/-- After the first emission's first segment (engine sequence 37). -/
def hoT2 : FileStreaming := (hoT1.watchEvent 0 720 ⟨4, 37, ⟨4, ['a']⟩⟩).1

/-- After a second accepted emit (timestamp 200). -/
def hoT3 : FileStreaming := (hoT2.emit 200).toOption.getD hoT2

/-- After the second emission's first segment (engine sequence 0): the
second emission is promoted to `current`, the first demoted to `last`
and stopped. -/
def hoT4 : FileStreaming := (hoT3.watchEvent 1 720 ⟨4, 0, ⟨4, ['b']⟩⟩).1

/-- First segment event of the single-emission overflow trace. -/
def ovT1 : FileStreaming := (hoT1.watchEvent 0 720 ⟨4, 0, ⟨4, ['a']⟩⟩).1

/-- Second segment event of the overflow trace. -/
def ovT2 : FileStreaming := (ovT1.watchEvent 0 720 ⟨4, 1, ⟨4, ['b']⟩⟩).1

/-- Third segment event of the overflow trace: three snapshots are
buffered against window size 2. -/
def ovT3 : FileStreaming := (ovT2.watchEvent 0 720 ⟨4, 2, ⟨4, ['c']⟩⟩).1

/-- A snapshot delivered twice by the at-least-once watch signal. -/
def dupSnap : Snapshot := ⟨4, 5, ⟨4, ['d']⟩⟩

/-- A stderr chunk carrying a fatal phrase as one of its CRLF lines. -/
def fatalChunk : List Char := "x\r\nNo such file or directory\r\ny".toList

/-- A concrete non-empty rewrite record for exercising the codec. -/
def c7w : WriteAct := ⟨720, 4, 37, [⟨0, 4, 37, ⟨4, ['a'], false⟩⟩]⟩

/-- Whether a segment event's result carries a playlist rewrite with a
discontinuity-marked segment. -/
def discMarkerWritten (p : FileStreaming × Option WriteAct) : Bool :=
  match p.2 with
  | none => false
  | some w => w.items.any (fun it => it.seg.discontinuity)

/-! ## Basic lemmas about the session steps -/

theorem pushStep_listSize (s : FileStreaming) (eid r : Nat) (snap : Snapshot) :
    (s.pushStep eid r snap).listSize = s.listSize := rfl

theorem pushStep_last (s : FileStreaming) (eid r : Nat) (snap : Snapshot) :
    (s.pushStep eid r snap).last = s.last := rfl

theorem pushStep_current (s : FileStreaming) (eid r : Nat) (snap : Snapshot) :
    (s.pushStep eid r snap).current = s.current := rfl

theorem pushStep_ems_length (s : FileStreaming) (eid r : Nat) (snap : Snapshot) :
    (s.pushStep eid r snap).ems.length = s.ems.length := by
  simp [FileStreaming.pushStep]

theorem getEm_pushStep_ne (s : FileStreaming) (eid r : Nat) (snap : Snapshot)
    (j : Nat) (h : j ≠ eid) :
    getEm (s.pushStep eid r snap) j = getEm s j := by
  simp [getEm, FileStreaming.pushStep, List.getElem?_set_ne (Ne.symm h)]

theorem getEm_pushStep_self (s : FileStreaming) (eid r : Nat) (snap : Snapshot)
    (h : eid < s.ems.length) :
    getEm (s.pushStep eid r snap) eid = (getEm s eid).pushSnapshot r snap := by
  simp [getEm, FileStreaming.pushStep, List.getElem?_set_self h]

theorem pushStep_oob (s : FileStreaming) (eid r : Nat) (snap : Snapshot)
    (h : s.ems.length ≤ eid) : (s.pushStep eid r snap).ems = s.ems := by
  simp only [FileStreaming.pushStep]
  exact List.set_eq_of_length_le h

theorem getEm_pushStep_oob (s : FileStreaming) (eid r : Nat) (snap : Snapshot)
    (h : s.ems.length ≤ eid) (i : Nat) :
    getEm (s.pushStep eid r snap) i = getEm s i := by
  unfold getEm
  rw [pushStep_oob s eid r snap h]

theorem promoteStep_listSize (s : FileStreaming) (eid : Nat) :
    (s.promoteStep eid).listSize = s.listSize := by
  unfold FileStreaming.promoteStep
  cases s.current <;> simp only [] <;> split <;> rfl

theorem promoteStep_ems_length (s : FileStreaming) (eid : Nat) :
    (s.promoteStep eid).ems.length = s.ems.length := by
  unfold FileStreaming.promoteStep
  cases s.current with
  | none => rfl
  | some cid =>
    simp only []
    split
    · simp
    · rfl

theorem promoteStep_current_isSome (s : FileStreaming) (eid : Nat) :
    ∃ c, (s.promoteStep eid).current = some c := by
  unfold FileStreaming.promoteStep
  cases hc : s.current with
  | none => exact ⟨eid, rfl⟩
  | some cid =>
    simp only []
    split
    · exact ⟨eid, rfl⟩
    · exact ⟨cid, hc⟩

/-- Promotion only stops a process: buffers, playlist-file state, heights
and timestamps of every emission are untouched. -/
theorem getEm_promoteStep_parts (s : FileStreaming) (eid j : Nat) :
    (∀ x, (getEm (s.promoteStep eid) j).bufs x = (getEm s j).bufs x) ∧
    (∀ x, (getEm (s.promoteStep eid) j).listFiles x = (getEm s j).listFiles x) ∧
    (getEm (s.promoteStep eid) j).heights = (getEm s j).heights ∧
    (getEm (s.promoteStep eid) j).timestamp = (getEm s j).timestamp := by
  unfold FileStreaming.promoteStep
  cases s.current with
  | none => simp [getEm]
  | some cid =>
    simp only []
    split
    · by_cases hj : j = cid
      · subst hj
        by_cases hl : j < s.ems.length
        · simp [getEm, List.getElem?_set_self hl, Emission.stopProcess]
        · have hset : s.ems.set j (s.ems[j]?.getD defaultEmission).stopProcess = s.ems :=
            List.set_eq_of_length_le (by omega)
          simp [getEm, hset]
      · simp [getEm, List.getElem?_set_ne (Ne.symm hj)]
    · simp

/-- Promotion never clears the draining reference: it either sets it to
the demoted current or leaves it unchanged. -/
theorem promoteStep_last_isSome (s : FileStreaming) (eid : Nat)
    (h : s.last.isSome = true) : (s.promoteStep eid).last.isSome = true := by
  unfold FileStreaming.promoteStep
  cases s.current with
  | none => exact h
  | some cid =>
    simp only []
    split
    · rfl
    · exact h

/-- A segment event's resulting state is the promoted pushed state, and
its write component is always `none` (the callback throws before the
write). -/
theorem watchEvent_parts (s : FileStreaming) (eid r : Nat) (snap : Snapshot) :
    (s.watchEvent eid r snap).1 = (s.pushStep eid r snap).promoteStep eid ∧
    (s.watchEvent eid r snap).2 = none :=
  ⟨rfl, rfl⟩

/-- A push only appends: each buffer after `pushStep` is the old buffer,
possibly extended by the pushed snapshot, and a playlist file present
before the push is still present after it. -/
theorem getEm_pushStep_cases (s : FileStreaming) (eid r : Nat) (snap : Snapshot)
    (i z : Nat) :
    ((getEm (s.pushStep eid r snap) i).bufs z = (getEm s i).bufs z ∨
      (getEm (s.pushStep eid r snap) i).bufs z = (getEm s i).bufs z ++ [snap]) ∧
    ((getEm s i).listFiles z = true →
      (getEm (s.pushStep eid r snap) i).listFiles z = true) := by
  by_cases hi : i = eid
  · subst hi
    by_cases hlen : i < s.ems.length
    · rw [getEm_pushStep_self s i r snap hlen]
      by_cases hz : z = r
      · subst hz
        refine ⟨Or.inr ?_, fun _ => ?_⟩
        · simp [Emission.pushSnapshot]
        · simp [Emission.pushSnapshot]
      · refine ⟨Or.inl ?_, fun h => ?_⟩
        · simp [Emission.pushSnapshot, hz]
        · simpa [Emission.pushSnapshot, hz] using h
    · rw [getEm_pushStep_oob s i r snap (by omega) i]
      exact ⟨Or.inl rfl, fun h => h⟩
  · rw [getEm_pushStep_ne s eid r snap i hi]
    exact ⟨Or.inl rfl, fun h => h⟩

/-! ## Codec lemmas -/

theorem msTag_not_prefix_of_td (xs : List Char) :
    msTagChars.isPrefixOf (tdTagChars ++ xs) = false := by
  rfl

theorem readListSequence_cons_skip (l next : List Char) (t : List (List Char))
    (h : msTagChars.isPrefixOf l = false) :
    readListSequence (l :: next :: t) = readListSequence (next :: t) := by
  simp only [readListSequence, h]
  simp

theorem readListSequence_cons_hit (n : Nat) (next : List Char) (t : List (List Char)) :
    readListSequence ((msTagChars ++ natDigs n) :: next :: t) = some n := by
  have hpre : msTagChars.isPrefixOf (msTagChars ++ natDigs n) = true := by
    rw [List.isPrefixOf_iff_prefix]
    exact List.prefix_append _ _
  simp only [readListSequence, hpre, List.drop_left, digsToNat_natDigs]
  simp

/-- Parsing the media-sequence tag back out of a written playlist with at
least one segment yields exactly the written sequence number. -/
theorem readListSequence_writeMasterList (resolve : List Char → List Char)
    (w : WriteAct) (hne : w.items ≠ []) :
    readListSequence (writeMasterList resolve w) = some w.sequence := by
  obtain ⟨s0, items0, hitems⟩ := List.exists_cons_of_ne_nil hne
  have hsegne : ((w.items.map MItem.seg).map (segLines resolve)).flatten ≠ [] := by
    rw [hitems]
    simp only [List.map_cons, List.flatten_cons]
    intro hcontra
    have := List.append_eq_nil.mp hcontra
    have h2 := this.1
    unfold segLines at h2
    rcases List.append_eq_nil.mp h2 with ⟨_, h3⟩
    simp at h3
  obtain ⟨x, xs, hflat⟩ := List.exists_cons_of_ne_nil hsegne
  unfold writeMasterList
  rw [hflat]
  simp only [List.cons_append, List.nil_append]
  rw [readListSequence_cons_skip _ _ _ (by decide)]
  rw [readListSequence_cons_skip _ _ _ (by decide)]
  rw [readListSequence_cons_skip _ _ _ (by decide)]
  rw [readListSequence_cons_skip _ _ _ (msTag_not_prefix_of_td _)]
  exact readListSequence_cons_hit _ _ _

/-! ## Reachability of the concrete traces -/

theorem reachable_hoT1 : Reachable hoT1 :=
  Reachable.emit 100 (Reachable.init none 4 2) rfl

theorem reachable_hoT2 : Reachable hoT2 :=
  Reachable.watch 0 720 ⟨4, 37, ⟨4, ['a']⟩⟩ reachable_hoT1 (by decide) (by decide)

theorem reachable_hoT3 : Reachable hoT3 :=
  Reachable.emit 200 reachable_hoT2 rfl

theorem reachable_hoT4 : Reachable hoT4 :=
  Reachable.watch 1 720 ⟨4, 0, ⟨4, ['b']⟩⟩ reachable_hoT3 (by decide) (by decide)

theorem reachable_ovT1 : Reachable ovT1 :=
  Reachable.watch 0 720 ⟨4, 0, ⟨4, ['a']⟩⟩ reachable_hoT1 (by decide) (by decide)

theorem reachable_ovT2 : Reachable ovT2 :=
  Reachable.watch 0 720 ⟨4, 1, ⟨4, ['b']⟩⟩ reachable_ovT1 (by decide) (by decide)

theorem reachable_ovT3 : Reachable ovT3 :=
  Reachable.watch 0 720 ⟨4, 2, ⟨4, ['c']⟩⟩ reachable_ovT2 (by decide) (by decide)

/-! ## Claim theorems -/

/-- C1: the claim says each rendition's rewritten live playlist never
lists more than `windowSize` segments, maintained by trimming the merged
view before serializing.  In the source the `emit` callback throws a
`TypeError` at the `this._current.list[r]` / `this._last.list[r]` access
(the final `Emission` class has no `list` getter) before the merge, the
trim and the `writeMasterList` call: no segment event ever produces a
playlist write, and the reachable window-size-2 session `ovT3` buffers
three snapshots for its rendition with no trim ever performed. -/
theorem C1_no_playlist_write :
    (∀ (s : FileStreaming) (eid r : Nat) (snap : Snapshot),
      (s.watchEvent eid r snap).2 = none) ∧
    Reachable ovT3 ∧ ovT3.listSize = 2 ∧ ((getEm ovT3 0).bufs 720).length = 3 :=
  ⟨fun _ _ _ _ => rfl, reachable_ovT3, rfl, rfl⟩

/-- C2: the claim says exactly one discontinuity marker appears in a
written rendition playlist whenever the window still holds
draining-contributed segments, set on the first current-owned segment.
The tagging block and the playlist write are dead code behind the
`TypeError` thrown at the `.list` access, so no segment event ever
produces a playlist rewrite carrying a discontinuity marker — zero
markers are ever written, in every state including handoffs. -/
theorem C2_no_discontinuity_written :
    ∀ (s : FileStreaming) (eid r : Nat) (snap : Snapshot),
      discMarkerWritten (s.watchEvent eid r snap) = false :=
  fun _ _ _ _ => rfl

/-- C3: every emit() call made while a draining Emission exists and is
non-empty is rejected with 'Transition in progress', before any new
Emission is constructed or started; and a session holds at most one
draining reference at any instant (the single `_last` field). -/
theorem C3_transition_in_progress (s : FileStreaming) (ts lid : Nat)
    (hl : s.last = some lid) (hne : (getEm s lid).isEmpty = false) :
    s.emit ts = Except.error "Transition in progress" ∧
    (∀ s', s.emit ts ≠ Except.ok s') ∧
    (∀ t : FileStreaming, t.last.toList.length ≤ 1) := by
  have he : s.emit ts = Except.error "Transition in progress" := by
    unfold FileStreaming.emit
    rw [hl]
    rfl
  refine ⟨he, fun s' hok => by rw [he] at hok; exact Except.noConfusion hok,
    fun t => by cases t.last <;> simp⟩

theorem C3_transition_in_progress_witness :
    hoT4.emit 999 = Except.error "Transition in progress" ∧
    (∀ s', hoT4.emit 999 ≠ Except.ok s') ∧
    (∀ t : FileStreaming, t.last.toList.length ≤ 1) :=
  C3_transition_in_progress hoT4 999 0 rfl rfl

/-- C4: the claim says window-overflow eviction removes the buffered
segment with the smallest sequence number for the rendition.  In the
source the eviction block (`list.splice(0, dif)` and the per-entry
`dispose` calls) is dead code: the callback throws a `TypeError` at the
`this._last.list[r]` / `this._current.list[r]` access (the final
`Emission` class has no `list` getter) before reaching it, so no segment
event ever removes a buffered entry — every buffer after an event is the
old buffer, possibly extended by the pushed snapshot, and nothing is ever
evicted. -/
theorem C4_no_eviction :
    ∀ (s : FileStreaming) (eid r : Nat) (snap : Snapshot) (i z : Nat),
      ∃ tail, (getEm (s.watchEvent eid r snap).1 i).bufs z =
        (getEm s i).bufs z ++ tail := by
  intro s eid r snap i z
  rw [(watchEvent_parts s eid r snap).1]
  rw [(getEm_promoteStep_parts (s.pushStep eid r snap) eid i).1 z]
  rcases (getEm_pushStep_cases s eid r snap i z).1 with h | h
  · exact ⟨[], by rw [h, List.append_nil]⟩
  · exact ⟨[snap], h⟩

/-- C5: the claim says the Emission deduplicates by sequence number
before appending, so that no two buffered entries share a sequence
number.  The watch handler of `Emission.start` only pushes
(`this._list[res].push(list)`): after the same snapshot (sequence 5) is
delivered twice, the buffer holds two entries with sequence 5 — the code
lacks the deduplication the specification requires. -/
theorem C5_no_dedup :
    (((freshEmission 100 [720]).pushSnapshot 720 dupSnap).pushSnapshot 720 dupSnap).bufs
      720 = [dupSnap, dupSnap] ∧
    ((((freshEmission 100 [720]).pushSnapshot 720 dupSnap).pushSnapshot 720
      dupSnap).bufs 720).countP (fun sn => sn.sequence == 5) = 2 :=
  ⟨rfl, rfl⟩

/-- C6: the claim says each written rendition playlist carries a
target-duration tag equal to the maximum segment duration across the
trimmed view (0 if empty).  The duration computation
(`Math.max(...list.map(o => o.duration), 0)`) and the `writeMasterList`
call sit behind the `TypeError` thrown at the `.list` access, so no
target-duration tag is ever written by the session: every segment event
produces no write at all. -/
theorem C6_no_targetduration_written :
    ∀ (s : FileStreaming) (eid r : Nat) (snap : Snapshot),
      ((s.watchEvent eid r snap).2).map WriteAct.duration = none :=
  fun _ _ _ _ => rfl

/-- C7: the claim says parsing the text serialized from every non-empty
windowed view recovers the oldest retained segment's sequence number.
The codec pair itself does round-trip — parsing `writeMasterList`'s
output for a non-empty record yields exactly the written media
sequence — but the session never serializes any view: `writeMasterList`'s
only call site is behind the `TypeError` thrown at the `.list` access, so
no segment event ever produces playlist text and the claimed round-trip
never happens in the program. -/
theorem C7_roundtrip_never_performed (resolve : List Char → List Char)
    (w : WriteAct) (hw : w.items ≠ []) :
    readListSequence (writeMasterList resolve w) = some w.sequence ∧
    ∀ (s : FileStreaming) (eid r : Nat) (snap : Snapshot),
      ((s.watchEvent eid r snap).2).map (writeMasterList resolve) = none :=
  ⟨readListSequence_writeMasterList resolve w hw, fun _ _ _ _ => rfl⟩

theorem C7_roundtrip_never_performed_witness :
    readListSequence (writeMasterList id c7w) = some c7w.sequence ∧
    ∀ (s : FileStreaming) (eid r : Nat) (snap : Snapshot),
      ((s.watchEvent eid r snap).2).map (writeMasterList id) = none :=
  C7_roundtrip_never_performed id c7w (by decide)

/-- C8 counterexample: after a stderr chunk whose CRLF-split lines
contain the fatal phrase 'No such file or directory', the start outcome
has rejected with that reason, but the process is still running (the
handler never calls stop) and a subsequent watch event still appends a
segment for the Emission — contradicting "the process is stopped
(confirmed killed), and no segments are ever appended". -/
theorem C8_fatal_counterexample :
    (emRunTrace [.stderrData fatalChunk, .watchFire 720 wSnapA]).settled =
      some (Except.error "No such file or directory".toList) ∧
    (emRunTrace [.stderrData fatalChunk, .watchFire 720 wSnapA]).running = true ∧
    (emRunTrace [.stderrData fatalChunk, .watchFire 720 wSnapA]).bufs 720 = [wSnapA] :=
  ⟨rfl, rfl, rfl⟩

/-- C8 (amended): when a stderr data chunk, split on CRLF, contains a
line exactly equal to one of the fixed fatal phrases while the start
outcome is unsettled, the start outcome rejects with that phrase as the
reason; the handler does not stop the process, and segment events
observed afterwards still append to the Emission's buffers. -/
theorem C8_fatal_phrase (st : EmRun) (chunk err : List Char)
    (h1 : st.settled = none) (h2 : stderrScan chunk = some err) :
    (emRunStep st (.stderrData chunk)).settled = some (Except.error err) ∧
    (emRunStep st (.stderrData chunk)).running = st.running ∧
    (∀ r, (emRunStep st (.stderrData chunk)).bufs r = st.bufs r) ∧
    (∀ r snap,
      (emRunStep (emRunStep st (.stderrData chunk)) (.watchFire r snap)).bufs r =
        st.bufs r ++ [snap]) := by
  have hstep : emRunStep st (.stderrData chunk) =
      { st with settled := some (.error err) } := by
    simp only [emRunStep, h2, h1]
    simp
  rw [hstep]
  refine ⟨rfl, rfl, fun r => rfl, fun r snap => ?_⟩
  simp only [emRunStep]
  simp

theorem C8_fatal_phrase_witness :
    (emRunStep emRunInit (.stderrData fatalChunk)).settled =
      some (Except.error "No such file or directory".toList) ∧
    (emRunStep emRunInit (.stderrData fatalChunk)).running = emRunInit.running ∧
    (∀ r, (emRunStep emRunInit (.stderrData fatalChunk)).bufs r = emRunInit.bufs r) ∧
    (∀ r snap,
      (emRunStep (emRunStep emRunInit (.stderrData fatalChunk))
        (.watchFire r snap)).bufs r = emRunInit.bufs r ++ [snap]) :=
  C8_fatal_phrase emRunInit fatalChunk "No such file or directory".toList rfl rfl

/-- C9: the claim says a drained draining Emission is released — playlist
files deleted, draining reference cleared — and the live current never
is.  The release block (`dispose`, `delete this._last` /
`delete this._current`) is dead code behind the `TypeError` thrown at the
`.list` access, so nothing is ever released: once a draining reference
exists it survives every segment event, no playlist file is ever deleted
by an event, and every later emit() rejects with 'Transition in progress'
forever. -/
theorem C9_draining_never_released (s : FileStreaming) (eid r : Nat)
    (snap : Snapshot) (hl : s.last.isSome = true) :
    ((s.watchEvent eid r snap).1.last).isSome = true ∧
    (∀ i z, (getEm s i).listFiles z = true →
      (getEm (s.watchEvent eid r snap).1 i).listFiles z = true) ∧
    (∀ ts, ((s.watchEvent eid r snap).1).emit ts =
      Except.error "Transition in progress") := by
  have hw := (watchEvent_parts s eid r snap).1
  have hlast : (((s.pushStep eid r snap).promoteStep eid).last).isSome = true := by
    apply promoteStep_last_isSome
    rw [pushStep_last]
    exact hl
  refine ⟨by rw [hw]; exact hlast, ?_, ?_⟩
  · intro i z hfile
    rw [hw]
    rw [(getEm_promoteStep_parts (s.pushStep eid r snap) eid i).2.1 z]
    exact (getEm_pushStep_cases s eid r snap i z).2 hfile
  · intro ts
    rw [hw]
    simp [FileStreaming.emit, hlast]

theorem C9_draining_never_released_witness :
    ((hoT4.watchEvent 0 720 wSnapA).1.last).isSome = true ∧
    (∀ i z, (getEm hoT4 i).listFiles z = true →
      (getEm (hoT4.watchEvent 0 720 wSnapA).1 i).listFiles z = true) ∧
    (∀ ts, ((hoT4.watchEvent 0 720 wSnapA).1).emit ts =
      Except.error "Transition in progress") :=
  C9_draining_never_released hoT4 0 720 wSnapA rfl

/-- C10: reading the public `renditions` getter always throws: its body
references `LiveStreaming.getResolutions`, and `LiveStreaming` is not a
name bound in the final module, so for every resolution mask the access
fails with a ReferenceError instead of returning the enabled rendition
profiles. -/
theorem C10_renditions_getter_throws :
    ∀ mask : Nat, renditionsGetter mask =
      Except.error (JsError.referenceError "LiveStreaming") := by
  intro mask
  rfl
